import Mathlib

/-!
Verification of the LynxVk repository's bootstrap/lifecycle layer.

The Rust sources are shallowly embedded: pure selection logic (API-version
check, surface-format / depth-format / present-mode selection, image-count
computation) becomes Lean functions over abstract query results; the
resource-lifecycle code (`resize_internal`, `create_swapchain`,
`create_depth_buffer`, `VulkanData::new`, `create_command_pools`) becomes
functions that additionally return a trace of create/destroy events, with
Vulkan handles modelled as natural numbers (`0` is the null handle) and the
outcome of each fallible driver call supplied by an environment record.
Rust's scopeguard drop semantics (locals dropped in reverse declaration
order on early return) are made explicit in the trace construction.
-/

namespace LynxVk

/-- 2D extent (`vk::Extent2D`): negotiated pixel width/height. -/
structure Extent2D where
  width : Nat
  height : Nat
deriving DecidableEq, Repr

/-- The fields of `vk::SurfaceCapabilitiesKHR` that the embedded code reads. -/
structure SurfaceCapabilitiesKHR where
  minImageCount : Nat
  maxImageCount : Nat
  currentExtent : Extent2D
  minImageExtent : Extent2D
  maxImageExtent : Extent2D
deriving DecidableEq, Repr

/-- The Vulkan formats mentioned by the embedded selection code. -/
inductive Format where
  | D16_UNORM_S8_UINT
  | D24_UNORM_S8_UINT
  | D32_SFLOAT_S8_UINT
  | B8G8R8A8_UNORM
  | R8G8B8A8_UNORM
deriving DecidableEq, Repr

/-- Color spaces mentioned by the embedded selection code. -/
inductive ColorSpaceKHR where
  | SRGB_NONLINEAR
  | EXTENDED_SRGB_LINEAR_EXT
deriving DecidableEq, Repr

/-- `vk::SurfaceFormatKHR`: a (pixel format, color space) pair. -/
structure SurfaceFormatKHR where
  format : Format
  colorSpace : ColorSpaceKHR
deriving DecidableEq, Repr

/-- `u32::MAX`, the "any extent" sentinel in `current_extent.width`. -/
def u32Max : Nat := 2 ^ 32 - 1

/-! ### API version encoding (`vk::make_api_version` and accessors) -/

/-- `vk::make_api_version(variant, major, minor, patch)`:
`(variant << 29) | (major << 22) | (minor << 12) | patch` on `u32`. -/
def makeApiVersion (variant major minor patch : Nat) : Nat :=
  ((variant <<< 29) ||| (major <<< 22) ||| (minor <<< 12) ||| patch) % 2 ^ 32

/-- `vk::api_version_major`: `(v >> 22) & 0x7f`. -/
def apiVersionMajor (v : Nat) : Nat := (v >>> 22) &&& 0x7f

/-- `vk::api_version_minor`: `(v >> 12) & 0x3ff`. -/
def apiVersionMinor (v : Nat) : Nat := (v >>> 12) &&& 0x3ff

/-- `vk::api_version_patch`: `v & 0xfff`. -/
def apiVersionPatch (v : Nat) : Nat := v &&& 0xfff

/-- Outcome of `entry.try_enumerate_instance_version()`:
`none` models the `Err` case, `some none` models `Ok(None)` (a 1.0 instance),
`some (some v)` models `Ok(Some(v))`. -/
abbrev VersionQuery := Option (Option Nat)

/-- `check_instance_version` from `vulkan_base/src/vulkan_base.rs`
(the same version test appears in `teapot_lean`'s `compatibility_check`):
an `Err` from the query is an error; `Ok(None)` defaults the version to
1.0.0; then the check rejects only when
`api_version_major(v) < 1 && api_version_minor(v) < 2`. -/
def checkInstanceVersion (query : VersionQuery) : Except String Unit :=
  match query with
  | none => .error "failed to enumerate instance version"
  | some result =>
    let apiVersion :=
      match result with
      | some version => version
      | none => makeApiVersion 0 1 0 0
    if apiVersionMajor apiVersion < 1 ∧ apiVersionMinor apiVersion < 2 then
      .error "minimum supported vulkan api version is 1.2.0"
    else
      .ok ()

/-- Lexicographic "version below 1.2": the behaviour the spec asks for. -/
def versionBelowOneTwo (major minor : Nat) : Prop :=
  major < 1 ∨ (major = 1 ∧ minor < 2)

instance (major minor : Nat) : Decidable (versionBelowOneTwo major minor) := by
  unfold versionBelowOneTwo; infer_instance

/-! ### Surface-format selection -/

/-- The preferred (format, color space) pair hard-coded in both crates. -/
def preferredSurfaceFormat : SurfaceFormatKHR :=
  { format := .B8G8R8A8_UNORM, colorSpace := .SRGB_NONLINEAR }

/-- The loop test in both surface-format selection loops. -/
def isPreferredSurfaceFormat (f : SurfaceFormatKHR) : Bool :=
  f.format = Format.B8G8R8A8_UNORM ∧ f.colorSpace = ColorSpaceKHR.SRGB_NONLINEAR

/-- Result of `get_surface_format` in the `vulkan_base` crate. `panicked`
models a Rust panic (the out-of-bounds index `formats[0]`), which is not a
value of the declared `Result` type. -/
inductive SurfaceFormatOutcome where
  | ok (f : SurfaceFormatKHR)
  | err (msg : String)
  | panicked
deriving DecidableEq, Repr

/-- `get_surface_format` from `vulkan_base/src/vulkan_base.rs`: an `Err`
from the format query is an error; otherwise the loop returns the preferred
pair on the first match, and after the loop the function returns
`formats[0]` — an indexing operation that panics when the list is empty. -/
def getSurfaceFormat (query : Option (List SurfaceFormatKHR)) : SurfaceFormatOutcome :=
  match query with
  | none => .err "failed to get physical device surface formats"
  | some formats =>
    match formats.find? isPreferredSurfaceFormat with
    | some _ => .ok preferredSurfaceFormat
    | none =>
      match formats with
      | [] => .panicked
      | f :: _ => .ok f

/-- The inline surface-format selection in `teapot_lean`'s
`VulkanBase::new` (lines 152–175): a flag is set if any reported format is
the preferred pair; when the flag stays unset the function returns
`Err("cannot find surface format")` — there is no fallback. -/
def selectSurfaceFormatInline (formats : List SurfaceFormatKHR) :
    Except String SurfaceFormatKHR :=
  if formats.any isPreferredSurfaceFormat then
    .ok preferredSurfaceFormat
  else
    .error "cannot find surface format"

/-! ### Depth-format selection -/

/-- The fixed preference-ordered candidate list, identical in both crates. -/
def depthFormatCandidates : List Format :=
  [.D16_UNORM_S8_UINT, .D24_UNORM_S8_UINT, .D32_SFLOAT_S8_UINT]

/-- `get_depth_format` from `vulkan_base/src/vulkan_base.rs`: the loop
returns the first candidate whose optimal-tiling features contain
`DEPTH_STENCIL_ATTACHMENT` (abstracted as the predicate `support`), and
falls through to `Err("failed to find depth format")`. -/
def getDepthFormat (support : Format → Bool) : Except String Format :=
  match depthFormatCandidates.find? support with
  | some format => .ok format
  | none => .error "failed to find depth format"

/-- The inline depth-format selection in `teapot_lean`'s `VulkanBase::new`
(lines 245–264): a mutable variable initialised to `D16_UNORM_S8_UINT` is
overwritten by every supported candidate, with no `break` and no error
path, so the loop keeps the last supported candidate (or the initial
default when none is supported). -/
def selectDepthFormatInline (support : Format → Bool) : Format :=
  depthFormatCandidates.foldl
    (fun depthFormat formatDepth =>
      if support formatDepth then formatDepth else depthFormat)
    .D16_UNORM_S8_UINT

/-! ### Swapchain image count and extent -/

/-- The image-count computation in `create_swapchain`
(`vulkan_base/src/vulkan_base.rs` lines 603–607) and in
`resize_internal` (`teapot_lean/src/vulkan_base.rs` lines 479–483):
`max(min_image_count, 3)`, then `min` with `max_image_count` when the
latter is non-zero. -/
def computeImageCount (caps : SurfaceCapabilitiesKHR) : Nat :=
  let imageCount := max caps.minImageCount 3
  if caps.maxImageCount ≠ 0 then
    min imageCount caps.maxImageCount
  else
    imageCount

/-- The extent computation shared by `get_surface_extent`
(`vulkan_base` crate) and `resize_internal` (`teapot_lean`): when
`current_extent.width` is the `u32::MAX` sentinel, clamp the window size to
the min/max image extents; otherwise use `current_extent` exactly. -/
def getSurfaceExtent (windowSize : Extent2D) (caps : SurfaceCapabilitiesKHR) :
    Extent2D :=
  if caps.currentExtent.width = u32Max then
    { width := max caps.minImageExtent.width (min caps.maxImageExtent.width windowSize.width),
      height := max caps.minImageExtent.height (min caps.maxImageExtent.height windowSize.height) }
  else
    caps.currentExtent

/-! ### Resource events and the resize protocol (`teapot_lean`) -/

/-- A Vulkan object handle, modelled as a natural number; `0` is
`vk::SwapchainKHR::null()` / a null handle. -/
abbrev Handle := Nat

/-- `MemImage` from `teapot_lean`'s `vulkan_utils`: a depth image together
with its view and its allocator block (the 3D extent's depth component,
always 1, is omitted). -/
structure MemImage where
  image : Handle
  view : Handle
  extent : Extent2D
  allocation : Handle
deriving DecidableEq, Repr

/-- The value `std::mem::take` leaves behind (`MemImage::default()`):
null handles and a zero extent. -/
def MemImage.empty : MemImage :=
  { image := 0, view := 0, extent := { width := 0, height := 0 }, allocation := 0 }

/-- GPU-object lifecycle events, in the order the embedded code performs
them. `createSwapchain` records the requested minimum image count and the
old-swapchain handle passed as the reuse hint. `createImage`/`allocate`
are emitted only for the depth buffer. -/
inductive Event where
  | createSwapchain (newHandle oldHandle : Handle) (requestedImageCount : Nat)
  | destroySwapchain (h : Handle)
  | createImageView (h : Handle)
  | destroyImageView (h : Handle)
  | createImage (h : Handle)
  | destroyImage (h : Handle)
  | allocate (h : Handle)
  | freeAllocation (h : Handle)
deriving DecidableEq, Repr

/-- Outcomes of the fallible driver calls made during one
`resize_internal` run, together with the data those calls report. -/
structure ResizeEnv where
  /-- `get_physical_device_surface_capabilities` succeeds. -/
  capsOk : Bool
  /-- The capabilities snapshot that query reports. -/
  caps : SurfaceCapabilitiesKHR
  /-- `create_swapchain` succeeds. -/
  swapchainOk : Bool
  /-- `get_swapchain_images` succeeds. -/
  getImagesOk : Bool
  /-- How many images the new swapchain reports. -/
  imageCountReturned : Nat
  /-- `create_image_view` fails at this index in
  `create_swapchain_image_views` (if the index is in range). -/
  imageViewFailAt : Option Nat
  /-- `create_image` for the depth buffer succeeds. -/
  depthImageOk : Bool
  /-- `allocator.allocate` for the depth buffer succeeds. -/
  depthAllocOk : Bool
  /-- `bind_image_memory` for the depth buffer succeeds. -/
  depthBindOk : Bool
  /-- `create_image_view` for the depth buffer succeeds. -/
  depthViewOk : Bool
deriving Repr

/-- `create_swapchain_image_views` (`teapot_lean/src/vulkan_base.rs` lines
712–756): one view per image; on a failure at index `i` the `map_err`
closure destroys the views created so far, iterating the vector front to
back, and the error names the index. The view created for index `i` gets
handle `base + i`. -/
def createViewsGo (images : List Handle) (i : Nat) (failAt : Option Nat)
    (base : Nat) (acc : List Handle) (tr : List Event) :
    Except String (List Handle) × List Event :=
  match images with
  | [] => (.ok acc, tr)
  | _ :: rest =>
    if failAt = some i then
      (.error ("failed to create image view " ++ toString i),
        tr ++ acc.map Event.destroyImageView)
    else
      createViewsGo rest (i + 1) failAt base (acc ++ [base + i])
        (tr ++ [Event.createImageView (base + i)])

/-- Entry point of the image-view loop (index starts at 0, nothing created
yet). -/
def createSwapchainImageViews (images : List Handle) (failAt : Option Nat)
    (base : Nat) : Except String (List Handle) × List Event :=
  createViewsGo images 0 failAt base [] []

/-- `create_depth_buffer` (`teapot_lean/src/vulkan_base.rs` lines
758–884): create the image (guarded), allocate memory (guarded), bind,
create the view (guarded), then `into_inner` everything. On an early
return the guards declared so far run in reverse declaration order:
allocation first, then image. Fresh handles: image `ctr`, allocation
`ctr + 1`, view `ctr + 2`. -/
def createDepthBuffer (surfaceExtent : Extent2D) (env : ResizeEnv)
    (ctr : Nat) : Except String MemImage × List Event :=
  if env.depthImageOk then
    let image := ctr
    if env.depthAllocOk then
      let allocation := ctr + 1
      if env.depthBindOk then
        if env.depthViewOk then
          let view := ctr + 2
          (.ok { image, view, extent := surfaceExtent, allocation },
            [.createImage image, .allocate allocation, .createImageView view])
        else
          (.error "failed to create depth buffer image view",
            [.createImage image, .allocate allocation,
              .freeAllocation allocation, .destroyImage image])
      else
        (.error "failed to bind depth buffer image memory",
          [.createImage image, .allocate allocation,
            .freeAllocation allocation, .destroyImage image])
    else
      (.error "failed to allocate depth buffer image memory",
        [.createImage image, .destroyImage image])
  else
    (.error "failed to create depth buffer image", [])

/-- The result record of `resize_internal`. -/
structure ResizeResult where
  surfaceCapabilities : SurfaceCapabilitiesKHR
  surfaceExtent : Extent2D
  swapchain : Handle
  swapchainImages : List Handle
  swapchainImageViews : List Handle
  depthBufferMemImage : MemImage
deriving DecidableEq, Repr

/-- `resize_internal` (`teapot_lean/src/vulkan_base.rs` lines 428–579),
step by step, with every destroy/create recorded in the trace:

1. `device_wait_idle` (no event);
2. query surface capabilities (fail ⇒ error, empty trace);
3. compute the extent and the requested image count;
4. create the new swapchain, passing `old_swapchain` as the hint
   (fail ⇒ error with no events);
5. if the old swapchain handle is non-null, destroy it immediately;
6. fetch the new swapchain's images (fail ⇒ error; the old swapchain is
   already gone);
7. destroy the old image views;
8. create the new image views (each wrapped in a scopeguard);
9. destroy the old depth buffer (image, view, allocation) when present;
10. create the new depth buffer (fail ⇒ its internal unwind runs, then
    the new-view scopeguards drop, destroying the new views front to
    back);
11. on success, `into_inner` detaches every guard: no destroy events.

Fresh handles: new swapchain `ctr`; images `ctr+1 …`; views and depth
resources follow. -/
def resizeInternal (windowSize : Extent2D) (oldSwapchain : Handle)
    (oldSwapchainImageViews : List Handle) (oldDepthBufferMemImage : Option MemImage)
    (env : ResizeEnv) (ctr : Nat) : Except String ResizeResult × List Event :=
  if env.capsOk then
    let surfaceCapabilities := env.caps
    let surfaceExtent := getSurfaceExtent windowSize surfaceCapabilities
    let imageCount := computeImageCount surfaceCapabilities
    if env.swapchainOk then
      let swapchain := ctr
      let t1 := [Event.createSwapchain swapchain oldSwapchain imageCount] ++
        (if oldSwapchain ≠ 0 then [Event.destroySwapchain oldSwapchain] else [])
      if env.getImagesOk then
        let swapchainImages :=
          (List.range env.imageCountReturned).map (fun i => ctr + 1 + i)
        let t2 := t1 ++ oldSwapchainImageViews.map Event.destroyImageView
        let viewBase := ctr + 1 + env.imageCountReturned
        match createSwapchainImageViews swapchainImages env.imageViewFailAt viewBase with
        | (.error e, tv) => (.error e, t2 ++ tv)
        | (.ok swapchainImageViews, tv) =>
          let t3 := t2 ++ tv
          let t4 := t3 ++
            (match oldDepthBufferMemImage with
             | some memImage =>
               [Event.destroyImage memImage.image,
                Event.destroyImageView memImage.view,
                Event.freeAllocation memImage.allocation]
             | none => [])
          match createDepthBuffer surfaceExtent env
              (viewBase + env.imageCountReturned) with
          | (.error e, td) =>
            (.error e, t4 ++ td ++ swapchainImageViews.map Event.destroyImageView)
          | (.ok depthBufferMemImage, td) =>
            (.ok { surfaceCapabilities, surfaceExtent, swapchain,
                   swapchainImages, swapchainImageViews, depthBufferMemImage },
              t4 ++ td)
      else
        (.error "failed to get swapchain images", t1)
    else
      (.error "failed to create swapchain", [])
  else
    (.error "failed to get physical device surface capabilities", [])

/-- The fields of `teapot_lean`'s `VulkanBase` that `resize` touches. -/
structure VulkanBaseState where
  surfaceCapabilities : SurfaceCapabilitiesKHR
  surfaceExtent : Extent2D
  swapchain : Handle
  swapchainImages : List Handle
  swapchainImageViews : List Handle
  depthBufferMemImage : MemImage
deriving DecidableEq, Repr

/-- `VulkanBase::resize` (`teapot_lean/src/vulkan_base.rs` lines 369–395):
`std::mem::take` moves the depth buffer out of `self` (leaving
`MemImage::default()`), `resize_internal` runs, and only on success are
the six fields overwritten with the new resources; the `?` on an error
leaves `self` with the taken-out depth field. -/
def VulkanBase.resize (st : VulkanBaseState) (windowSize : Extent2D)
    (env : ResizeEnv) (ctr : Nat) :
    Except String Unit × VulkanBaseState × List Event :=
  let oldDepthBufferMemImage := st.depthBufferMemImage
  let taken := { st with depthBufferMemImage := MemImage.empty }
  match resizeInternal windowSize st.swapchain st.swapchainImageViews
      (some oldDepthBufferMemImage) env ctr with
  | (.error e, tr) => (.error e, taken, tr)
  | (.ok r, tr) =>
    (.ok (),
      { surfaceCapabilities := r.surfaceCapabilities,
        surfaceExtent := r.surfaceExtent,
        swapchain := r.swapchain,
        swapchainImages := r.swapchainImages,
        swapchainImageViews := r.swapchainImageViews,
        depthBufferMemImage := r.depthBufferMemImage }, tr)

/-- `create_swapchain` from `vulkan_base/src/vulkan_base.rs` (lines
592–642): compute the image count, create the new swapchain with
`old_swapchain` in the create info as the reuse hint (fail ⇒ error, the
old handle untouched), and destroy the old handle only afterwards, and
only when it is non-null. The new swapchain gets handle `ctr`. -/
def createSwapchainVB (oldSwapchain : Handle) (caps : SurfaceCapabilitiesKHR)
    (creationOk : Bool) (ctr : Nat) : Except String Handle × List Event :=
  let imageCount := computeImageCount caps
  if creationOk then
    (.ok ctr,
      [Event.createSwapchain ctr oldSwapchain imageCount] ++
        (if oldSwapchain ≠ 0 then [Event.destroySwapchain oldSwapchain] else []))
  else
    (.error "failed to create swapchain", [])

/-! ### Per-frame vector construction (`teapot` crate) -/

/-- Events of the per-frame pool/fence vector constructors: pool `i` is
the resource created at loop index `i`. -/
inductive PoolEvent where
  | createPool (i : Nat)
  | destroyPool (i : Nat)
deriving DecidableEq, Repr

/-- The loop body of `create_command_pools`
(`teapot/src/vulkan/vulkan_data_fns.rs` lines 415–454; the descriptor-pool
and fence loops have the same shape): on a failure at index `i` the
`map_err` closure destroys the pools pushed so far, iterating the vector
front to back, then the error naming `i` propagates. -/
def createCommandPoolsGo (creationOk : Nat → Bool) :
    List Nat → List Nat → List PoolEvent →
    Except String (List Nat) × List PoolEvent
  | [], commandPools, tr => (.ok commandPools, tr)
  | i :: rest, commandPools, tr =>
    if creationOk i then
      createCommandPoolsGo creationOk rest (commandPools ++ [i])
        (tr ++ [.createPool i])
    else
      (.error ("failed to create command pool " ++ toString i),
        tr ++ commandPools.map PoolEvent.destroyPool)

/-- `create_command_pools` over `CONCURRENT_RESOURCE_COUNT = n` frames,
with the outcome of each `create_command_pool` call given by
`creationOk`. -/
def createCommandPools (n : Nat) (creationOk : Nat → Bool) :
    Except String (List Nat) × List PoolEvent :=
  createCommandPoolsGo creationOk (List.range n) [] []

/-! ### Scopeguarded construction in `VulkanData::new` (`teapot` crate) -/

/-- Rollback events of `VulkanData::new`: `destroyStep k` is the rollback
of the scopeguard created at step `k`, `destroyUniform j` the destruction
of per-frame uniform buffer `j` inside the uniform-vector guard. -/
inductive VDEvent where
  | destroyStep (k : Nat)
  | destroyUniform (j : Nat)
deriving DecidableEq, Repr

/-- Generic scopeguarded straight-line construction: each step either
succeeds — pushing its rollback action onto the guard stack (newest
first, mirroring Rust's reverse-declaration-order drop of locals) — or
fails, in which case the stack runs as the early return unwinds and the
error names the failing step. On overall success the caller commits via
`into_inner`, so no rollback runs. -/
def runScoped : List (Bool × List VDEvent) → Nat → List VDEvent →
    Except Nat Unit × List VDEvent
  | [], _, _ => (.ok (), [])
  | (stepOk, rollback) :: rest, k, stack =>
    if stepOk then
      runScoped rest (k + 1) (rollback ++ stack)
    else
      (.error k, stack)

/-- Index of the per-frame uniform-buffer vector among the steps of
`VulkanData::new` (`teapot/src/vulkan/vulkan_data.rs` lines 27–285):
0 vertex shader module, 1 tese module, 2 tesc module, 3 fragment module,
4 control-points buffer, 5 patches buffer, 6 instances buffer,
7 uniform-buffer vector, 8 descriptor set layout, 9 pipeline layout,
10 render pass, 11 pipelines. -/
def uniformStepIndex : Nat := 7

/-- Number of scopeguarded steps in `VulkanData::new`. -/
def vdStepCount : Nat := 12

/-- Whether step `k` of `VulkanData::new` succeeds. The uniform-vector
step (step 7) succeeds only when every one of its `uCount` element
creations succeeds; in the source a mid-loop failure there returns before
the vector's guard exists, so the step contributes no rollback of its
own. -/
def vdStepOk (scalarOk : Nat → Bool) (uniformOk : Nat → Bool) (uCount : Nat)
    (k : Nat) : Bool :=
  if k = uniformStepIndex then (List.range uCount).all uniformOk else scalarOk k

/-- The rollback the scopeguard of step `k` performs when dropped. The
uniform-vector guard iterates its vector front to back
(`vulkan_data.rs` lines 184–194); every other guard destroys its single
resource. -/
def vdStepRollback (uCount : Nat) (k : Nat) : List VDEvent :=
  if k = uniformStepIndex then (List.range uCount).map .destroyUniform
  else [.destroyStep k]

/-- The step list of `VulkanData::new`. -/
def vdSteps (scalarOk : Nat → Bool) (uniformOk : Nat → Bool) (uCount : Nat) :
    List (Bool × List VDEvent) :=
  (List.range vdStepCount).map
    (fun k => (vdStepOk scalarOk uniformOk uCount k, vdStepRollback uCount k))

/-- `VulkanData::new` as a scopeguarded construction sequence. -/
def vulkanDataNew (scalarOk : Nat → Bool) (uniformOk : Nat → Bool)
    (uCount : Nat) : Except Nat Unit × List VDEvent :=
  runScoped (vdSteps scalarOk uniformOk uCount) 0 []

/-- The events an early return at step `k` produces: the rollbacks of
steps `k-1, …, 0` concatenated in that (reverse-construction) order. -/
def vdUnwind (uCount : Nat) (k : Nat) : List VDEvent :=
  (((List.range k).map (vdStepRollback uCount)).reverse).flatten

/-! ### Deferred submission channel (`mess/src/ash_test.rs`) -/

/-- The capacity passed to `crossbeam_channel::bounded` in `Core::new`
(`mess/src/ash_test.rs` line 167). -/
def deferredSubmitsCapacity : Nat := 16

/-- Observable state of the bounded deferred-submission channel: `sent`
is the sequence of items in the order their `send` calls completed
(enqueue order, across all producers), `delivered` the sequence the
consumer has received, `queue` the items currently buffered. Items are
command-buffer handles. -/
structure ChannelState where
  sent : List Handle
  delivered : List Handle
  queue : List Handle
deriving DecidableEq, Repr

/-- Transitions of a bounded blocking channel of capacity `cap`
(the documented contract of `crossbeam_channel::bounded`, which
`Core::deferred_submit` calls `send` on): a producer's `send` completes
only while the buffer holds fewer than `cap` items — a producer facing a
full buffer blocks, so no transition exists that discards an item — and
the consumer's `recv` removes the front item. -/
inductive ChanStep (cap : Nat) : ChannelState → ChannelState → Prop
  | send (s : ChannelState) (item : Handle) (h : s.queue.length < cap) :
      ChanStep cap s
        { sent := s.sent ++ [item], delivered := s.delivered,
          queue := s.queue ++ [item] }
  | recv (s : ChannelState) (item : Handle) (rest : List Handle)
      (h : s.queue = item :: rest) :
      ChanStep cap s
        { sent := s.sent, delivered := s.delivered ++ [item], queue := rest }

/-- The channel starts empty (`Core::new`). -/
def chanInit : ChannelState := { sent := [], delivered := [], queue := [] }

/-- States reachable by any interleaving of producer sends and consumer
receives. -/
def ChanReachable (cap : Nat) (s : ChannelState) : Prop :=
  Relation.ReflTransGen (ChanStep cap) chanInit s

/-! ### Concrete fixtures used by counterexamples and witnesses -/

/-- A device on which the first two depth candidates support
depth-stencil attachment with optimal tiling, the third does not. -/
def supportD16D24 : Format → Bool
  | .D16_UNORM_S8_UINT => true
  | .D24_UNORM_S8_UINT => true
  | _ => false

/-- A device on which only the middle depth candidate qualifies. -/
def supportD24only : Format → Bool
  | .D24_UNORM_S8_UINT => true
  | _ => false

/-- A device on which no depth candidate qualifies. -/
def supportNone : Format → Bool := fun _ => false

/-- A bounded-extent capabilities snapshot (unbounded image count). -/
def capsC : SurfaceCapabilitiesKHR :=
  { minImageCount := 2, maxImageCount := 0,
    currentExtent := { width := 800, height := 600 },
    minImageExtent := { width := 1, height := 1 },
    maxImageExtent := { width := 4096, height := 4096 } }

/-- A window size for concrete resize runs. -/
def wsC : Extent2D := { width := 800, height := 600 }

/-- A resize environment in which every driver call succeeds and the new
swapchain reports 3 images. -/
def envAllOk : ResizeEnv :=
  { capsOk := true, caps := capsC, swapchainOk := true, getImagesOk := true,
    imageCountReturned := 3, imageViewFailAt := none, depthImageOk := true,
    depthAllocOk := true, depthBindOk := true, depthViewOk := true }

/-- A resize environment whose only failure is the depth-buffer image
view creation — the very last creation step of the resize. -/
def envDepthViewFails : ResizeEnv := { envAllOk with depthViewOk := false }

/-- The old depth buffer (image 4, view 5, allocation 6) used in concrete
`resize_internal` runs and carried by `stLive`. -/
def oldDepthC : MemImage :=
  { image := 4, view := 5, extent := { width := 800, height := 600 }, allocation := 6 }

/-- A live `VulkanBase` before a resize: swapchain handle 1, two image
views (2, 3), depth buffer image 4 / view 5 / allocation 6. -/
def stLive : VulkanBaseState :=
  { surfaceCapabilities := capsC, surfaceExtent := { width := 800, height := 600 },
    swapchain := 1, swapchainImages := [90, 91, 92],
    swapchainImageViews := [2, 3],
    depthBufferMemImage := oldDepthC }

/-- Command-pool creation that succeeds for pools 0 and 1 and fails for
pool 2. -/
def poolsOkC4 : Nat → Bool := fun i => decide (i < 2)

/-- The channel state after sends of items 1 and 2 and one receive. -/
def chanStateW : ChannelState := { sent := [1, 2], delivered := [1], queue := [2] }

/-- A reported surface format that is not the preferred pair. -/
def otherFormat : SurfaceFormatKHR :=
  { format := .R8G8B8A8_UNORM, colorSpace := .SRGB_NONLINEAR }

/-- "Some step of this resize fails": the disjunction of the failure
conditions of every fallible step `resize_internal` performs (the
image-view step fails only when the failing index is actually reached). -/
def ResizeEnv.stepFails (env : ResizeEnv) : Prop :=
  env.capsOk = false ∨ env.swapchainOk = false ∨ env.getImagesOk = false ∨
  (∃ j, env.imageViewFailAt = some j ∧ j < env.imageCountReturned) ∨
  env.depthImageOk = false ∨ env.depthAllocOk = false ∨
  env.depthBindOk = false ∨ env.depthViewOk = false

/-! ## Theorems -/

/-! ### C7 — instance API-version check (code bug) -/

/-- C7: the claim says every reported instance API version lexicographically
below 1.2.0 is rejected, in particular a version with a lower major but a
minor of 2 or more. The code tests
`api_version_major(v) < 1 && api_version_minor(v) < 2` (a conjunction), so
version 0.2.0 — below 1.2.0 — passes the check (`Ok`), as does 1.1.0;
only 0.0.x and 0.1.x are rejected. This evaluates the embedded check at
those inputs, exhibiting the divergence the spec itself flags as a bug. -/
theorem c7_version_check_accepts_below_minimum :
    checkInstanceVersion (some (some (makeApiVersion 0 0 2 0))) = .ok () ∧
    versionBelowOneTwo (apiVersionMajor (makeApiVersion 0 0 2 0))
      (apiVersionMinor (makeApiVersion 0 0 2 0)) ∧
    checkInstanceVersion (some (some (makeApiVersion 0 1 1 0))) = .ok () ∧
    versionBelowOneTwo (apiVersionMajor (makeApiVersion 0 1 1 0))
      (apiVersionMinor (makeApiVersion 0 1 1 0)) ∧
    checkInstanceVersion (some (some (makeApiVersion 0 0 1 0))) =
      .error "minimum supported vulkan api version is 1.2.0" :=
  ⟨rfl, by decide, rfl, by decide, rfl⟩

/-! ### C8 — swapchain image-count computation (confirmed) -/

/-- C8: the image count requested at swapchain creation equals
`max(min_image_count, 3)`, clamped down to `max_image_count` whenever the
latter is non-zero; consequently the request is at least 3 whenever the
surface's bound permits (no bound, or a bound of at least 3). -/
theorem c8_image_count_clamped (caps : SurfaceCapabilitiesKHR) :
    computeImageCount caps =
      (if caps.maxImageCount ≠ 0 then
        min (max caps.minImageCount 3) caps.maxImageCount
       else max caps.minImageCount 3) ∧
    ((caps.maxImageCount = 0 ∨ 3 ≤ caps.maxImageCount) →
      3 ≤ computeImageCount caps) := by
  constructor
  · rfl
  · intro h
    rcases h with h | h <;> simp only [computeImageCount] <;> split <;> omega

/-- Witness for C8 at a concrete capabilities snapshot (unbounded
`max_image_count`). -/
theorem c8_image_count_clamped_witness : 3 ≤ computeImageCount capsC :=
  (c8_image_count_clamped capsC).2 (Or.inl rfl)

/-! ### C10 — `get_surface_format` panics on an empty format list (confirmed) -/

/-- C10: with an empty reported format list, `get_surface_format` in the
`vulkan_base` crate reaches `formats[0]` and panics instead of returning
an error `Result`; an error is returned only when the format query itself
fails. -/
theorem c10_surface_format_empty_panics :
    getSurfaceFormat (some []) = .panicked ∧
    getSurfaceFormat none = .err "failed to get physical device surface formats" ∧
    ∀ formats msg, getSurfaceFormat (some formats) ≠ .err msg := by
  refine ⟨rfl, rfl, ?_⟩
  intro formats msg h
  rcases hf : formats.find? isPreferredSurfaceFormat with _ | x
  · cases formats with
    | nil => simp [getSurfaceFormat] at h
    | cons a as => simp [getSurfaceFormat, hf] at h
  · simp [getSurfaceFormat, hf] at h

/-- Witness for C10: on a non-empty list the function does not produce the
error outcome. -/
theorem c10_surface_format_empty_panics_witness :
    getSurfaceFormat (some [otherFormat]) ≠ .err "cannot find surface format" :=
  c10_surface_format_empty_panics.2.2 [otherFormat] "cannot find surface format"

/-! ### C3 — depth-format selection (corrected) -/

/-- Counterexample to C3 as stated: the claim covers both cited call
sites, but the inline loop in `teapot_lean`'s `VulkanBase::new` has no
`break` and no error path. On a device supporting the first two
candidates it returns `D24_UNORM_S8_UINT`, not the first qualifying
candidate `D16_UNORM_S8_UINT`; and on a device supporting none it
returns the default `D16_UNORM_S8_UINT` instead of failing. -/
theorem c3_counterexample :
    supportD16D24 Format.D16_UNORM_S8_UINT = true ∧
    selectDepthFormatInline supportD16D24 = Format.D24_UNORM_S8_UINT ∧
    selectDepthFormatInline supportNone = Format.D16_UNORM_S8_UINT :=
  ⟨rfl, rfl, rfl⟩

/-- C3 (amended): `get_depth_format` in the `vulkan_base` crate behaves as
claimed — first qualifying candidate of the fixed list, middle candidate
when only it qualifies, error when none qualifies — while the inline
selection in `teapot_lean`'s `VulkanBase::new` keeps the **last**
qualifying candidate and silently falls back to `D16_UNORM_S8_UINT`
(no error) when none qualifies. -/
theorem c3_depth_format_selection (support : Format → Bool) :
    (support Format.D16_UNORM_S8_UINT = true →
      getDepthFormat support = .ok Format.D16_UNORM_S8_UINT) ∧
    (support Format.D16_UNORM_S8_UINT = false →
      support Format.D24_UNORM_S8_UINT = true →
      getDepthFormat support = .ok Format.D24_UNORM_S8_UINT) ∧
    ((∀ f ∈ depthFormatCandidates, support f = false) →
      getDepthFormat support = .error "failed to find depth format") ∧
    (support Format.D32_SFLOAT_S8_UINT = true →
      selectDepthFormatInline support = Format.D32_SFLOAT_S8_UINT) ∧
    (support Format.D24_UNORM_S8_UINT = true →
      support Format.D32_SFLOAT_S8_UINT = false →
      selectDepthFormatInline support = Format.D24_UNORM_S8_UINT) ∧
    ((∀ f ∈ depthFormatCandidates, support f = false) →
      selectDepthFormatInline support = Format.D16_UNORM_S8_UINT) := by
  refine ⟨?_, ?_, ?_, ?_, ?_, ?_⟩
  · intro h1
    simp [getDepthFormat, depthFormatCandidates, List.find?, h1]
  · intro h1 h2
    simp [getDepthFormat, depthFormatCandidates, List.find?, h1, h2]
  · intro h
    have h1 := h Format.D16_UNORM_S8_UINT (by simp [depthFormatCandidates])
    have h2 := h Format.D24_UNORM_S8_UINT (by simp [depthFormatCandidates])
    have h3 := h Format.D32_SFLOAT_S8_UINT (by simp [depthFormatCandidates])
    simp [getDepthFormat, depthFormatCandidates, List.find?, h1, h2, h3]
  · intro h3
    simp [selectDepthFormatInline, depthFormatCandidates, h3]
  · intro h2 h3
    simp [selectDepthFormatInline, depthFormatCandidates, h2, h3]
  · intro h
    have h1 := h Format.D16_UNORM_S8_UINT (by simp [depthFormatCandidates])
    have h2 := h Format.D24_UNORM_S8_UINT (by simp [depthFormatCandidates])
    have h3 := h Format.D32_SFLOAT_S8_UINT (by simp [depthFormatCandidates])
    simp [selectDepthFormatInline, depthFormatCandidates, h1, h2, h3]

/-- Witness for C3 (amended) on concrete devices: the middle-only device
selects `D24` at both call sites, and the no-support device errors in the
crate function. -/
theorem c3_depth_format_selection_witness :
    getDepthFormat supportD24only = .ok Format.D24_UNORM_S8_UINT ∧
    getDepthFormat supportNone = .error "failed to find depth format" ∧
    selectDepthFormatInline supportD24only = Format.D24_UNORM_S8_UINT :=
  ⟨(c3_depth_format_selection supportD24only).2.1 rfl rfl,
   (c3_depth_format_selection supportNone).2.2.1 (fun f _ => rfl),
   (c3_depth_format_selection supportD24only).2.2.2.2.1 rfl rfl⟩

/-! ### C6 — surface-format selection (corrected) -/

/-- Counterexample to C6 as stated: with the non-empty reported list
`[otherFormat]` (which lacks the preferred pair), the inline selection in
`teapot_lean`'s `VulkanBase::new` fails with an error instead of falling
back to the first reported format; the crate's `get_surface_format` does
fall back on the same input. -/
theorem c6_counterexample :
    selectSurfaceFormatInline [otherFormat] = .error "cannot find surface format" ∧
    getSurfaceFormat (some [otherFormat]) = .ok otherFormat :=
  ⟨rfl, rfl⟩

/-- C6 (amended): for a non-empty reported format list,
`get_surface_format` in the `vulkan_base` crate returns the preferred
(B8G8R8A8_UNORM, SRGB_NONLINEAR) pair when the surface reports it and
otherwise falls back to the first reported format, never failing; the
inline selection in `teapot_lean`'s `VulkanBase::new` instead returns an
error whenever the preferred pair is absent. -/
theorem c6_surface_format_selection (formats : List SurfaceFormatKHR)
    (f : SurfaceFormatKHR) (rest : List SurfaceFormatKHR) :
    (formats.any isPreferredSurfaceFormat = true →
      getSurfaceFormat (some formats) = .ok preferredSurfaceFormat ∧
      selectSurfaceFormatInline formats = .ok preferredSurfaceFormat) ∧
    (formats = f :: rest → formats.any isPreferredSurfaceFormat = false →
      getSurfaceFormat (some formats) = .ok f ∧
      selectSurfaceFormatInline formats = .error "cannot find surface format") := by
  constructor
  · intro h
    have hs : (formats.find? isPreferredSurfaceFormat).isSome :=
      List.find?_isSome.mpr (by simpa using List.any_eq_true.mp h)
    obtain ⟨x, hx⟩ := Option.isSome_iff_exists.mp hs
    constructor
    · simp [getSurfaceFormat, hx]
    · simp [selectSurfaceFormatInline, h]
  · intro hf h
    have hn : formats.find? isPreferredSurfaceFormat = none := by
      rw [List.find?_eq_none]
      intro x hx hp
      exact absurd hp (by simpa using (List.any_eq_false.mp h) x hx)
    subst hf
    constructor
    · simp [getSurfaceFormat, hn]
    · simp [selectSurfaceFormatInline, h]

/-- Witness for C6 (amended), at a list reporting the preferred pair and
at a list that lacks it. -/
theorem c6_surface_format_selection_witness :
    (getSurfaceFormat (some [preferredSurfaceFormat]) = .ok preferredSurfaceFormat ∧
     selectSurfaceFormatInline [preferredSurfaceFormat] = .ok preferredSurfaceFormat) ∧
    (getSurfaceFormat (some [otherFormat]) = .ok otherFormat ∧
     selectSurfaceFormatInline [otherFormat] = .error "cannot find surface format") :=
  ⟨(c6_surface_format_selection [preferredSurfaceFormat] preferredSurfaceFormat []).1
      (by decide),
   (c6_surface_format_selection [otherFormat] otherFormat []).2 rfl (by decide)⟩

/-! ### C4 — transactional construction and rollback order (corrected) -/

/-- Splitting `List.range` at a position strictly inside it. -/
lemma range_split (k n : Nat) (h : k < n) :
    ∃ rest, List.range n = List.range k ++ k :: rest := by
  rw [show n = k + ((n - k - 1) + 1) by omega, List.range_add,
    List.range_succ_eq_map]
  refine ⟨(List.range (n - k - 1)).map (fun x => k + (x + 1)), ?_⟩
  simp [List.map_map, Function.comp, Nat.succ_eq_add_one]

/-- Processing a run of successful creations accumulates the pools and
their create events. -/
lemma createCommandPoolsGo_append (creationOk : Nat → Bool) (l₁ : List Nat) :
    ∀ (l₂ pools : List Nat) (tr : List PoolEvent),
      (∀ i ∈ l₁, creationOk i = true) →
      createCommandPoolsGo creationOk (l₁ ++ l₂) pools tr =
        createCommandPoolsGo creationOk l₂ (pools ++ l₁)
          (tr ++ l₁.map PoolEvent.createPool) := by
  induction l₁ with
  | nil => intro l₂ pools tr _; simp
  | cons i rest ih =>
    intro l₂ pools tr h
    have hi : creationOk i = true := h i (by simp)
    rw [List.cons_append, createCommandPoolsGo, if_pos hi,
      ih l₂ (pools ++ [i]) (tr ++ [PoolEvent.createPool i])
        (fun j hj => h j (by simp [hj]))]
    simp

/-- A fully successful pool loop returns every pool and no destroy
events. -/
lemma createCommandPoolsGo_all_ok (creationOk : Nat → Bool) (l : List Nat)
    (pools : List Nat) (tr : List PoolEvent) (h : ∀ i ∈ l, creationOk i = true) :
    createCommandPoolsGo creationOk l pools tr =
      (.ok (pools ++ l), tr ++ l.map PoolEvent.createPool) := by
  rw [show l = l ++ [] by simp] at h ⊢
  rw [createCommandPoolsGo_append creationOk l [] pools tr (by simpa using h)]
  simp [createCommandPoolsGo]

/-- Processing a run of successful steps pushes their rollbacks onto the
guard stack, newest first. -/
lemma runScoped_append (pre : List (Bool × List VDEvent)) :
    ∀ (post : List (Bool × List VDEvent)) (k : Nat) (stack : List VDEvent),
      (∀ s ∈ pre, s.1 = true) →
      runScoped (pre ++ post) k stack =
        runScoped post (k + pre.length)
          ((pre.map Prod.snd).reverse.flatten ++ stack) := by
  induction pre with
  | nil => intro post k stack _; simp
  | cons p ps ih =>
    intro post k stack h
    obtain ⟨stepOk, rollback⟩ := p
    have hp : stepOk = true := h (stepOk, rollback) (by simp)
    rw [List.cons_append, runScoped, if_pos hp,
      ih post (k + 1) (rollback ++ stack) (fun s hs => h s (by simp [hs]))]
    have harith : k + 1 + ps.length = k + (ps.length + 1) := by omega
    simp [harith]

/-- A failing step aborts with the current guard stack as its unwind. -/
lemma runScoped_fail (p : Bool × List VDEvent)
    (rest : List (Bool × List VDEvent)) (k : Nat) (stack : List VDEvent)
    (hp : p.1 = false) : runScoped (p :: rest) k stack = (.error k, stack) := by
  obtain ⟨stepOk, rollback⟩ := p
  simp only at hp
  rw [runScoped, if_neg (by simp [hp])]

/-- A fully successful scopeguarded sequence commits: no rollback runs. -/
lemma runScoped_all_ok (steps : List (Bool × List VDEvent)) :
    ∀ (k : Nat) (stack : List VDEvent), (∀ s ∈ steps, s.1 = true) →
      runScoped steps k stack = (.ok (), []) := by
  induction steps with
  | nil => intro k stack _; rfl
  | cons p ps ih =>
    intro k stack h
    obtain ⟨stepOk, rollback⟩ := p
    have hp : stepOk = true := h (stepOk, rollback) (by simp)
    rw [runScoped, if_pos hp]
    exact ih (k + 1) (rollback ++ stack) (fun s hs => h s (by simp [hs]))

/-- Counterexample to C4 as stated: with three command pools where pools
0 and 1 succeed and pool 2 fails, exactly pools 0 and 1 are destroyed —
but in construction order (0 then 1), not the claimed strict
reverse-construction order (1 then 0). -/
theorem c4_counterexample :
    createCommandPools 3 poolsOkC4 =
      (.error "failed to create command pool 2",
       [.createPool 0, .createPool 1, .destroyPool 0, .destroyPool 1]) ∧
    (createCommandPools 3 poolsOkC4).2 ≠
      [.createPool 0, .createPool 1, .destroyPool 1, .destroyPool 0] := by
  exact ⟨rfl, by decide⟩

/-- C4 (amended): when step `k` fails after steps `0..k-1` succeeded,
exactly the already-created resources are rolled back and the failing
step never has a destructor invoked, and on full success nothing is
destroyed (every resource commits to the owning struct); but the order
differs from the claim for homogeneous vectors: the pool/fence vector
loops destroy the already-created elements in **forward** construction
order, while the heterogeneous scopeguarded steps of `VulkanData::new`
unwind in reverse construction order (`vdUnwind`). -/
theorem c4_scoped_rollback :
    (∀ (n : Nat) (creationOk : Nat → Bool) (k : Nat), k < n →
      (∀ i, i < k → creationOk i = true) → creationOk k = false →
      createCommandPools n creationOk =
        (.error ("failed to create command pool " ++ toString k),
         (List.range k).map PoolEvent.createPool ++
           (List.range k).map PoolEvent.destroyPool)) ∧
    (∀ (n : Nat) (creationOk : Nat → Bool), (∀ i, i < n → creationOk i = true) →
      createCommandPools n creationOk =
        (.ok (List.range n), (List.range n).map PoolEvent.createPool)) ∧
    (∀ (scalarOk uniformOk : Nat → Bool) (uCount k : Nat), k < vdStepCount →
      (∀ i, i < k → vdStepOk scalarOk uniformOk uCount i = true) →
      vdStepOk scalarOk uniformOk uCount k = false →
      vulkanDataNew scalarOk uniformOk uCount = (.error k, vdUnwind uCount k)) ∧
    (∀ (scalarOk uniformOk : Nat → Bool) (uCount : Nat),
      (∀ i, i < vdStepCount → vdStepOk scalarOk uniformOk uCount i = true) →
      vulkanDataNew scalarOk uniformOk uCount = (.ok (), [])) := by
  refine ⟨?_, ?_, ?_, ?_⟩
  · intro n creationOk k hk hik hkf
    obtain ⟨rest, hr⟩ := range_split k n hk
    unfold createCommandPools
    rw [hr, createCommandPoolsGo_append creationOk (List.range k) (k :: rest) [] []
      (fun i hi => hik i (List.mem_range.mp hi))]
    rw [createCommandPoolsGo, if_neg (by simp [hkf])]
    simp
  · intro n creationOk h
    unfold createCommandPools
    rw [createCommandPoolsGo_all_ok creationOk (List.range n) [] []
      (fun i hi => h i (List.mem_range.mp hi))]
    simp
  · intro scalarOk uniformOk uCount k hk hik hkf
    obtain ⟨rest, hr⟩ := range_split k vdStepCount hk
    unfold vulkanDataNew vdSteps
    rw [hr, List.map_append, List.map_cons]
    rw [runScoped_append _ _ 0 []
      (fun s hs => by
        obtain ⟨i, hi, hgi⟩ := List.mem_map.mp hs
        rw [← hgi]
        exact hik i (List.mem_range.mp hi))]
    rw [runScoped_fail _ _ _ _ hkf]
    simp only [List.map_map, List.length_map, List.length_range, Nat.zero_add,
      List.append_nil, vdUnwind]
    rfl
  · intro scalarOk uniformOk uCount h
    exact runScoped_all_ok _ 0 []
      (fun s hs => by
        obtain ⟨i, hi, hgi⟩ := List.mem_map.mp hs
        rw [← hgi]
        exact h i (List.mem_range.mp hi))

/-- Witness for C4 (amended) at the concrete three-pool run with pool 2
failing, and at a fully successful `VulkanData::new` with two frames. -/
theorem c4_scoped_rollback_witness :
    createCommandPools 3 poolsOkC4 =
      (.error ("failed to create command pool " ++ toString 2),
       (List.range 2).map PoolEvent.createPool ++
         (List.range 2).map PoolEvent.destroyPool) ∧
    vulkanDataNew (fun _ => true) (fun _ => true) 2 = (.ok (), []) := by
  constructor
  · exact c4_scoped_rollback.1 3 poolsOkC4 2 (by omega)
      (fun i hi => by simp [poolsOkC4, hi]) (by simp [poolsOkC4])
  · exact c4_scoped_rollback.2.2.2 (fun _ => true) (fun _ => true) 2
      (fun i _ => by simp [vdStepOk])

/-! ### C9 — deferred submission channel (confirmed) -/

/-- Channel invariant: what was delivered followed by what is still
queued is exactly what was enqueued, and the buffer never exceeds the
capacity. -/
lemma chan_invariant (cap : Nat) (s : ChannelState) (h : ChanReachable cap s) :
    s.delivered ++ s.queue = s.sent ∧ s.queue.length ≤ cap := by
  induction h with
  | refl => exact ⟨rfl, by simp [chanInit]⟩
  | tail hab hbc ih =>
    obtain ⟨ih1, ih2⟩ := ih
    cases hbc with
    | send item hlt =>
      refine ⟨?_, ?_⟩
      · rw [← List.append_assoc, ih1]
      · simp only [List.length_append, List.length_cons, List.length_nil]
        omega
    | recv item rest hq =>
      refine ⟨?_, ?_⟩
      · rw [List.append_assoc]
        simpa [hq] using ih1
      · show rest.length ≤ cap
        rw [hq] at ih2
        simp only [List.length_cons] at ih2
        omega

/-- C9: the deferred-submission channel has fixed capacity 16
(`crossbeam_channel::bounded(16)` in `Core::new`), and in every state
reachable under any interleaving of producer sends and consumer receives:
delivery order is exactly enqueue order (what has been delivered plus what
is still queued equals the send sequence — in particular the delivered
sequence extends to the sent sequence, so items dequeue FIFO and nothing
is lost), the buffer never exceeds the capacity, distinct items are never
delivered twice, and from a full channel no transition completes a send —
the producer blocks rather than dropping the item. -/
theorem c9_deferred_submission_channel :
    deferredSubmitsCapacity = 16 ∧
    ∀ s, ChanReachable deferredSubmitsCapacity s →
      s.delivered ++ s.queue = s.sent ∧
      (∃ t, s.delivered ++ t = s.sent) ∧
      s.queue.length ≤ deferredSubmitsCapacity ∧
      (s.sent.Nodup → s.delivered.Nodup) ∧
      (∀ s', ChanStep deferredSubmitsCapacity s s' →
        s.queue.length = deferredSubmitsCapacity → s'.sent = s.sent) := by
  refine ⟨rfl, ?_⟩
  intro s hs
  obtain ⟨h1, h2⟩ := chan_invariant _ s hs
  refine ⟨h1, ⟨s.queue, h1⟩, h2, ?_, ?_⟩
  · intro hn
    refine hn.sublist ?_
    rw [← h1]
    exact List.sublist_append_left _ _
  · intro s' hstep hfull
    cases hstep with
    | send item hlt => exact absurd hlt (by omega)
    | recv item rest hq => rfl

/-- Witness for C9 at the concrete reachable state obtained by sending
items 1 and 2 and receiving once. -/
theorem c9_deferred_submission_channel_witness :
    chanStateW.delivered ++ chanStateW.queue = chanStateW.sent ∧
    chanStateW.queue.length ≤ deferredSubmitsCapacity := by
  have s1 : ChanStep deferredSubmitsCapacity chanInit
      { sent := [1], delivered := [], queue := [1] } :=
    ChanStep.send chanInit 1 (by decide)
  have s2 : ChanStep deferredSubmitsCapacity
      { sent := [1], delivered := [], queue := [1] }
      { sent := [1, 2], delivered := [], queue := [1, 2] } :=
    ChanStep.send _ 2 (by decide)
  have s3 : ChanStep deferredSubmitsCapacity
      { sent := [1, 2], delivered := [], queue := [1, 2] } chanStateW :=
    ChanStep.recv _ 1 [2] rfl
  have hr : ChanReachable deferredSubmitsCapacity chanStateW :=
    Relation.ReflTransGen.tail
      (Relation.ReflTransGen.tail
        (Relation.ReflTransGen.tail Relation.ReflTransGen.refl s1) s2) s3
  exact ⟨(c9_deferred_submission_channel.2 chanStateW hr).1,
    (c9_deferred_submission_channel.2 chanStateW hr).2.2.1⟩

/-! ### C5 — old swapchain destroyed only after the new one exists (confirmed) -/

/-- Every event the image-view loop emits beyond its inherited trace is an
image-view create or destroy. -/
lemma createViewsGo_events (images : List Handle) :
    ∀ (i : Nat) (failAt : Option Nat) (base : Nat) (acc : List Handle)
      (tr : List Event) (e : Event),
      e ∈ (createViewsGo images i failAt base acc tr).2 →
      e ∈ tr ∨ (∃ h, e = Event.createImageView h) ∨
        (∃ h, e = Event.destroyImageView h) := by
  induction images with
  | nil =>
    intro i failAt base acc tr e he
    exact Or.inl he
  | cons img rest ih =>
    intro i failAt base acc tr e he
    rw [createViewsGo] at he
    by_cases hf : failAt = some i
    · rw [if_pos hf] at he
      simp only at he
      rcases List.mem_append.mp he with h1 | h1
      · exact Or.inl h1
      · obtain ⟨x, _, hx⟩ := List.mem_map.mp h1
        exact Or.inr (Or.inr ⟨x, hx.symm⟩)
    · rw [if_neg hf] at he
      rcases ih (i + 1) failAt base (acc ++ [base + i])
          (tr ++ [Event.createImageView (base + i)]) e he with h1 | h1 | h1
      · rcases List.mem_append.mp h1 with h2 | h2
        · exact Or.inl h2
        · simp only [List.mem_singleton] at h2
          exact Or.inr (Or.inl ⟨base + i, h2⟩)
      · exact Or.inr (Or.inl h1)
      · exact Or.inr (Or.inr h1)

/-- The depth-buffer constructor never touches a swapchain handle. -/
lemma createDepthBuffer_no_destroySwapchain (ext : Extent2D) (env : ResizeEnv)
    (ctr : Nat) (h : Handle) :
    Event.destroySwapchain h ∉ (createDepthBuffer ext env ctr).2 := by
  unfold createDepthBuffer
  split_ifs <;> simp

/-- C5: in both swapchain rebuild paths — `create_swapchain` in the
`vulkan_base` crate and `resize_internal` in `teapot_lean` — the old
swapchain handle is passed to the creation call as the reuse hint
(recorded in the `createSwapchain` event), a non-null old handle is
destroyed immediately after, and only after, the new swapchain exists,
and when creation fails no `destroySwapchain` event occurs at all: the
old handle survives. -/
theorem c5_swapchain_replacement_order :
    (∀ (old : Handle) (caps : SurfaceCapabilitiesKHR) (ctr : Nat),
      createSwapchainVB old caps false ctr =
        (.error "failed to create swapchain", []) ∧
      createSwapchainVB old caps true ctr =
        (.ok ctr, Event.createSwapchain ctr old (computeImageCount caps) ::
          (if old ≠ 0 then [Event.destroySwapchain old] else []))) ∧
    (∀ (ws : Extent2D) (old : Handle) (oldViews : List Handle)
      (oldDepth : Option MemImage) (env : ResizeEnv) (ctr : Nat),
      (env.swapchainOk = false →
        (∃ e, (resizeInternal ws old oldViews oldDepth env ctr).1 = .error e) ∧
        ∀ h, Event.destroySwapchain h ∉
          (resizeInternal ws old oldViews oldDepth env ctr).2) ∧
      (env.capsOk = true → env.swapchainOk = true →
        ∃ t, (resizeInternal ws old oldViews oldDepth env ctr).2 =
            Event.createSwapchain ctr old (computeImageCount env.caps) ::
              ((if old ≠ 0 then [Event.destroySwapchain old] else []) ++ t) ∧
          ∀ h, Event.destroySwapchain h ∉ t)) := by
  constructor
  · intro old caps ctr
    exact ⟨rfl, rfl⟩
  · intro ws old oldViews oldDepth env ctr
    constructor
    · intro hswF
      cases hc : env.capsOk
      · exact ⟨⟨"failed to get physical device surface capabilities",
            by simp [resizeInternal, hc]⟩, by simp [resizeInternal, hc]⟩
      · exact ⟨⟨"failed to create swapchain", by simp [resizeInternal, hc, hswF]⟩,
          by simp [resizeInternal, hc, hswF]⟩
    · intro hc hsw
      cases hg : env.getImagesOk
      · refine ⟨[], ?_, by simp⟩
        simp [resizeInternal, hc, hsw, hg]
      · rcases hv : createSwapchainImageViews
            ((List.range env.imageCountReturned).map (fun i => ctr + 1 + i))
            env.imageViewFailAt (ctr + 1 + env.imageCountReturned) with ⟨vres, tv⟩
        have htv : ∀ h, Event.destroySwapchain h ∉ tv := by
          intro h hmem
          have hv' : createViewsGo
              ((List.range env.imageCountReturned).map (fun i => ctr + 1 + i)) 0
              env.imageViewFailAt (ctr + 1 + env.imageCountReturned) [] [] =
              (vres, tv) := hv
          have hmem' : Event.destroySwapchain h ∈
              (createViewsGo
                ((List.range env.imageCountReturned).map (fun i => ctr + 1 + i)) 0
                env.imageViewFailAt (ctr + 1 + env.imageCountReturned) [] []).2 := by
            rw [hv']
            exact hmem
          rcases createViewsGo_events _ _ _ _ _ _ _ hmem' with h1 | h1 | h1
          · exact absurd h1 (List.not_mem_nil _)
          · obtain ⟨x, hx⟩ := h1
            simp at hx
          · obtain ⟨x, hx⟩ := h1
            simp at hx
        cases vres with
        | error e =>
          refine ⟨oldViews.map Event.destroyImageView ++ tv, ?_, ?_⟩
          · simp [resizeInternal, hc, hsw, hg, hv, List.append_assoc]
          · intro h hmem
            rcases List.mem_append.mp hmem with h1 | h1
            · obtain ⟨x, _, hx⟩ := List.mem_map.mp h1
              simp at hx
            · exact htv h h1
        | ok views =>
          rcases hd : createDepthBuffer (getSurfaceExtent ws env.caps) env
              (ctr + 1 + env.imageCountReturned + env.imageCountReturned)
            with ⟨dres, td⟩
          have htd : ∀ h, Event.destroySwapchain h ∉ td := by
            intro h hmem
            have : Event.destroySwapchain h ∈
                (createDepthBuffer (getSurfaceExtent ws env.caps) env
                  (ctr + 1 + env.imageCountReturned + env.imageCountReturned)).2 := by
              rw [hd]
              exact hmem
            exact createDepthBuffer_no_destroySwapchain _ _ _ _ this
          rcases oldDepth with _ | d
          · cases dres with
            | error e =>
              refine ⟨oldViews.map Event.destroyImageView ++ (tv ++
                (td ++ views.map Event.destroyImageView)), ?_, ?_⟩
              · simp [resizeInternal, hc, hsw, hg, hv, hd, List.append_assoc]
              · intro h hmem
                rcases List.mem_append.mp hmem with h1 | h1
                · obtain ⟨x, _, hx⟩ := List.mem_map.mp h1
                  simp at hx
                rcases List.mem_append.mp h1 with h2 | h2
                · exact htv h h2
                rcases List.mem_append.mp h2 with h3 | h3
                · exact htd h h3
                · obtain ⟨x, _, hx⟩ := List.mem_map.mp h3
                  simp at hx
            | ok mi =>
              refine ⟨oldViews.map Event.destroyImageView ++ (tv ++ td), ?_, ?_⟩
              · simp [resizeInternal, hc, hsw, hg, hv, hd, List.append_assoc]
              · intro h hmem
                rcases List.mem_append.mp hmem with h1 | h1
                · obtain ⟨x, _, hx⟩ := List.mem_map.mp h1
                  simp at hx
                rcases List.mem_append.mp h1 with h2 | h2
                · exact htv h h2
                · exact htd h h2
          · cases dres with
            | error e =>
              refine ⟨oldViews.map Event.destroyImageView ++ (tv ++
                ([Event.destroyImage d.image, Event.destroyImageView d.view,
                  Event.freeAllocation d.allocation] ++
                  (td ++ views.map Event.destroyImageView))), ?_, ?_⟩
              · simp [resizeInternal, hc, hsw, hg, hv, hd, List.append_assoc]
              · intro h hmem
                rcases List.mem_append.mp hmem with h1 | h1
                · obtain ⟨x, _, hx⟩ := List.mem_map.mp h1
                  simp at hx
                rcases List.mem_append.mp h1 with h2 | h2
                · exact htv h h2
                rcases List.mem_append.mp h2 with h3 | h3
                · simp at h3
                rcases List.mem_append.mp h3 with h4 | h4
                · exact htd h h4
                · obtain ⟨x, _, hx⟩ := List.mem_map.mp h4
                  simp at hx
            | ok mi =>
              refine ⟨oldViews.map Event.destroyImageView ++ (tv ++
                ([Event.destroyImage d.image, Event.destroyImageView d.view,
                  Event.freeAllocation d.allocation] ++ td)), ?_, ?_⟩
              · simp [resizeInternal, hc, hsw, hg, hv, hd, List.append_assoc]
              · intro h hmem
                rcases List.mem_append.mp hmem with h1 | h1
                · obtain ⟨x, _, hx⟩ := List.mem_map.mp h1
                  simp at hx
                rcases List.mem_append.mp h1 with h2 | h2
                · exact htv h h2
                rcases List.mem_append.mp h2 with h3 | h3
                · simp at h3
                · exact htd h h3

/-- Witness for C5: the creation-succeeds path of the crate function at a
non-null old handle, and a failed-creation resize in which the old
swapchain handle 2 is never destroyed. -/
theorem c5_swapchain_replacement_order_witness :
    createSwapchainVB 1 capsC true 10 =
      (.ok 10, Event.createSwapchain 10 1 (computeImageCount capsC) ::
        (if (1 : Handle) ≠ 0 then [Event.destroySwapchain 1] else [])) ∧
    Event.destroySwapchain 2 ∉
      (resizeInternal wsC 2 [] none { envAllOk with swapchainOk := false } 10).2 :=
  ⟨(c5_swapchain_replacement_order.1 1 capsC 10).2,
   ((c5_swapchain_replacement_order.2 wsC 2 [] none
      { envAllOk with swapchainOk := false } 10).1 rfl).2 2⟩

/-! ### C2 — old depth buffer destroyed before the new one exists (corrected) -/

/-- With no failing view index, the image-view loop succeeds, appending
only `createImageView` events. -/
lemma createViewsGo_none_ok (images : List Handle) :
    ∀ (i base : Nat) (acc : List Handle) (tr : List Event),
      ∃ views tv,
        createViewsGo images i none base acc tr = (.ok views, tr ++ tv) ∧
        ∀ e ∈ tv, ∃ h, e = Event.createImageView h := by
  induction images with
  | nil =>
    intro i base acc tr
    exact ⟨acc, [], by simp [createViewsGo], by simp⟩
  | cons img rest ih =>
    intro i base acc tr
    obtain ⟨views, tv, hgo, htv⟩ := ih (i + 1) base (acc ++ [base + i])
      (tr ++ [Event.createImageView (base + i)])
    refine ⟨views, Event.createImageView (base + i) :: tv, ?_, ?_⟩
    · rw [createViewsGo, if_neg (by simp), hgo]
      simp
    · intro e he
      rcases List.mem_cons.mp he with h1 | h1
      · exact ⟨base + i, h1⟩
      · exact htv e h1

/-- Counterexample to C2 as stated: in the all-success resize run the old
depth buffer (image 4) is destroyed at trace position 7, while the new
depth image (17) is only created at position 10 — the destruction comes
first, not after the new depth buffer exists. -/
theorem c2_counterexample :
    (resizeInternal wsC 1 [2, 3] (some oldDepthC) envAllOk 10).2.indexOf
        (Event.destroyImage 4) = 7 ∧
    (resizeInternal wsC 1 [2, 3] (some oldDepthC) envAllOk 10).2.indexOf
        (Event.createImage 17) = 10 ∧
    Event.destroyImage 4 ∈ (resizeInternal wsC 1 [2, 3] (some oldDepthC) envAllOk 10).2 ∧
    Event.createImage 17 ∈ (resizeInternal wsC 1 [2, 3] (some oldDepthC) envAllOk 10).2 := by
  refine ⟨by decide, by decide, by decide, by decide⟩

/-- C2 (amended): whenever `resize_internal` reaches the depth-buffer
step, the old depth buffer (image, view, allocation) is destroyed
**before** the new depth buffer is created: the trace splits as
`t₁ ++ (destroy-old-depth ++ t₂)` with every depth-image creation and
allocation event strictly after the destruction. Consequently a failure
while building the new depth buffer leaves the caller with no valid depth
buffer. -/
theorem c2_old_depth_destroyed_first (ws : Extent2D) (old : Handle)
    (oldViews : List Handle) (d : MemImage) (env : ResizeEnv) (ctr : Nat)
    (hc : env.capsOk = true) (hs : env.swapchainOk = true)
    (hg : env.getImagesOk = true) (hvn : env.imageViewFailAt = none) :
    ∃ t₁ t₂, (resizeInternal ws old oldViews (some d) env ctr).2 =
        t₁ ++ ([Event.destroyImage d.image, Event.destroyImageView d.view,
          Event.freeAllocation d.allocation] ++ t₂) ∧
      (∀ h, Event.createImage h ∉ t₁) ∧ (∀ h, Event.allocate h ∉ t₁) := by
  obtain ⟨views, tv, hgo, htv⟩ := createViewsGo_none_ok
    ((List.range env.imageCountReturned).map (fun i => ctr + 1 + i)) 0
    (ctr + 1 + env.imageCountReturned) [] []
  have hv : createSwapchainImageViews
      ((List.range env.imageCountReturned).map (fun i => ctr + 1 + i)) none
      (ctr + 1 + env.imageCountReturned) = (.ok views, [] ++ tv) := hgo
  have hmem : ∀ e ∈ (Event.createSwapchain ctr old (computeImageCount env.caps) ::
      ((if old ≠ 0 then [Event.destroySwapchain old] else []) ++
        (oldViews.map Event.destroyImageView ++ tv))),
      (∀ h, e ≠ Event.createImage h) ∧ (∀ h, e ≠ Event.allocate h) := by
    intro e he
    rcases List.mem_cons.mp he with h1 | h1
    · subst h1
      exact ⟨fun h => by simp, fun h => by simp⟩
    rcases List.mem_append.mp h1 with h2 | h2
    · by_cases ho : old = 0
      · simp [ho] at h2
      · simp [ho] at h2
        subst h2
        exact ⟨fun h => by simp, fun h => by simp⟩
    rcases List.mem_append.mp h2 with h3 | h3
    · obtain ⟨x, _, hx⟩ := List.mem_map.mp h3
      subst hx
      exact ⟨fun h => by simp, fun h => by simp⟩
    · obtain ⟨x, hx⟩ := htv e h3
      subst hx
      exact ⟨fun h => by simp, fun h => by simp⟩
  rcases hd : createDepthBuffer (getSurfaceExtent ws env.caps) env
      (ctr + 1 + env.imageCountReturned + env.imageCountReturned) with ⟨dres, td⟩
  cases dres with
  | error e =>
    refine ⟨Event.createSwapchain ctr old (computeImageCount env.caps) ::
        ((if old ≠ 0 then [Event.destroySwapchain old] else []) ++
          (oldViews.map Event.destroyImageView ++ tv)),
      td ++ views.map Event.destroyImageView, ?_, ?_, ?_⟩
    · simp [resizeInternal, hc, hs, hg, hvn, hv, hd, List.append_assoc]
    · intro h hm
      exact (hmem _ hm).1 h rfl
    · intro h hm
      exact (hmem _ hm).2 h rfl
  | ok mi =>
    refine ⟨Event.createSwapchain ctr old (computeImageCount env.caps) ::
        ((if old ≠ 0 then [Event.destroySwapchain old] else []) ++
          (oldViews.map Event.destroyImageView ++ tv)),
      td, ?_, ?_, ?_⟩
    · simp [resizeInternal, hc, hs, hg, hvn, hv, hd, List.append_assoc]
    · intro h hm
      exact (hmem _ hm).1 h rfl
    · intro h hm
      exact (hmem _ hm).2 h rfl

/-- Witness for C2 (amended) on the all-success environment: the old
depth image's destruction does occur in the trace. -/
theorem c2_old_depth_destroyed_first_witness :
    Event.destroyImage oldDepthC.image ∈
      (resizeInternal wsC 1 [2, 3] (some oldDepthC) envAllOk 10).2 := by
  obtain ⟨t₁, t₂, heq, -, -⟩ := c2_old_depth_destroyed_first wsC 1 [2, 3]
    oldDepthC envAllOk 10 rfl rfl rfl rfl
  rw [heq]
  simp

/-! ### C1 — resize failure and preservation of the previous state (corrected) -/

/-- If any of the four depth-buffer creation calls fails, the depth
builder returns an error. -/
lemma createDepthBuffer_fail (ext : Extent2D) (env : ResizeEnv) (ctr : Nat)
    (h : env.depthImageOk = false ∨ env.depthAllocOk = false ∨
      env.depthBindOk = false ∨ env.depthViewOk = false) :
    ∃ e td, createDepthBuffer ext env ctr = (.error e, td) := by
  unfold createDepthBuffer
  split_ifs with h1 h2 h3 h4
  · rcases h with h | h | h | h <;> simp_all
  · exact ⟨_, _, rfl⟩
  · exact ⟨_, _, rfl⟩
  · exact ⟨_, _, rfl⟩
  · exact ⟨_, _, rfl⟩

/-- A failing index inside the range of the image list makes the
image-view loop fail. -/
lemma createViewsGo_failAt (images : List Handle) :
    ∀ (i base : Nat) (acc : List Handle) (tr : List Event) (j : Nat),
      i ≤ j → j < i + images.length →
      ∃ e tr', createViewsGo images i (some j) base acc tr = (.error e, tr') := by
  induction images with
  | nil =>
    intro i base acc tr j hij hlt
    simp only [List.length_nil, Nat.add_zero] at hlt
    omega
  | cons img rest ih =>
    intro i base acc tr j hij hlt
    by_cases hji : j = i
    · exact ⟨_, _, by rw [createViewsGo, if_pos (by rw [hji])]⟩
    · have h1 : i + 1 ≤ j := by omega
      have h2 : j < (i + 1) + rest.length := by
        simp only [List.length_cons] at hlt
        omega
      obtain ⟨e, tr', hgo⟩ := ih (i + 1) base (acc ++ [base + i])
        (tr ++ [Event.createImageView (base + i)]) j h1 h2
      exact ⟨e, tr', by rw [createViewsGo, if_neg (by simp [hji]), hgo]⟩

/-- When any step of `resize_internal` fails, the whole call returns an
error. -/
lemma resizeInternal_fails_fst (ws : Extent2D) (old : Handle)
    (oldViews : List Handle) (oldDepth : Option MemImage) (env : ResizeEnv)
    (ctr : Nat) (h : env.stepFails) :
    ∃ e, (resizeInternal ws old oldViews oldDepth env ctr).1 = .error e := by
  cases hc : env.capsOk
  · exact ⟨"failed to get physical device surface capabilities",
      by simp [resizeInternal, hc]⟩
  · cases hs : env.swapchainOk
    · exact ⟨"failed to create swapchain", by simp [resizeInternal, hc, hs]⟩
    · cases hg : env.getImagesOk
      · exact ⟨"failed to get swapchain images", by simp [resizeInternal, hc, hs, hg]⟩
      · rcases hv : createSwapchainImageViews
            ((List.range env.imageCountReturned).map (fun i => ctr + 1 + i))
            env.imageViewFailAt (ctr + 1 + env.imageCountReturned) with ⟨vres, tv⟩
        cases vres with
        | error e => exact ⟨e, by simp [resizeInternal, hc, hs, hg, hv]⟩
        | ok views =>
          rcases h with h | h | h | ⟨j, hj, hjlt⟩ | h | h | h | h
          · simp [h] at hc
          · simp [h] at hs
          · simp [h] at hg
          · obtain ⟨e, tr', hfail⟩ := createViewsGo_failAt
              ((List.range env.imageCountReturned).map (fun i => ctr + 1 + i))
              0 (ctr + 1 + env.imageCountReturned) [] [] j (Nat.zero_le j)
              (by simp; omega)
            have hv' : createViewsGo
                ((List.range env.imageCountReturned).map (fun i => ctr + 1 + i)) 0
                (some j) (ctr + 1 + env.imageCountReturned) [] [] =
                (.ok views, tv) := by
              rw [hj] at hv
              exact hv
            rw [hfail] at hv'
            simp at hv'
          all_goals
            obtain ⟨e, td, hd⟩ := createDepthBuffer_fail
              (getSurfaceExtent ws env.caps) env
              (ctr + 1 + env.imageCountReturned + env.imageCountReturned)
              (by tauto)
          all_goals
            exact ⟨e, by simp [resizeInternal, hc, hs, hg, hv, hd]⟩

/-- Counterexample to C1 as stated: with only the depth-buffer view
creation failing, `resize` does return an error, but the supposedly
preserved state is gone — the old swapchain (handle 1), the old image
views (2, 3) and the old depth buffer (image 4) have already been
destroyed, and the `depth_buffer_mem_image` field of `VulkanBase` was
reset by `mem::take` before the attempt, so it no longer holds the old
depth buffer. -/
theorem c1_counterexample :
    (VulkanBase.resize stLive wsC envDepthViewFails 10).1 =
      .error "failed to create depth buffer image view" ∧
    Event.destroySwapchain 1 ∈ (VulkanBase.resize stLive wsC envDepthViewFails 10).2.2 ∧
    Event.destroyImageView 2 ∈ (VulkanBase.resize stLive wsC envDepthViewFails 10).2.2 ∧
    Event.destroyImage 4 ∈ (VulkanBase.resize stLive wsC envDepthViewFails 10).2.2 ∧
    (VulkanBase.resize stLive wsC envDepthViewFails 10).2.1.depthBufferMemImage ≠
      stLive.depthBufferMemImage := by
  exact ⟨rfl, by decide, by decide, by decide, by decide⟩

/-- C1 (amended): when some step of the resize fails, `resize` returns an
error and every field of `VulkanBase` except `depth_buffer_mem_image` is
left unchanged; `depth_buffer_mem_image` has already been reset to the
default (taken) value, and — as the counterexample shows — old resources
may already have been destroyed by the time of the failure, so the
previous swapchain state is not preserved. -/
theorem c1_resize_failure_state (st : VulkanBaseState) (ws : Extent2D)
    (env : ResizeEnv) (ctr : Nat) (h : env.stepFails) :
    ∃ e tr, VulkanBase.resize st ws env ctr =
      (.error e, { st with depthBufferMemImage := MemImage.empty }, tr) := by
  obtain ⟨e, he⟩ := resizeInternal_fails_fst ws st.swapchain
    st.swapchainImageViews (some st.depthBufferMemImage) env ctr h
  rcases hr : resizeInternal ws st.swapchain st.swapchainImageViews
      (some st.depthBufferMemImage) env ctr with ⟨res, tr⟩
  rw [hr] at he
  simp only at he
  subst he
  exact ⟨e, tr, by simp [VulkanBase.resize, hr]⟩

/-- Witness for C1 (amended) at the concrete failing resize: the state
after the failed call is the old state with the depth field taken. -/
theorem c1_resize_failure_state_witness :
    (VulkanBase.resize stLive wsC envDepthViewFails 10).2.1 =
      { stLive with depthBufferMemImage := MemImage.empty } := by
  obtain ⟨e, tr, hr⟩ := c1_resize_failure_state stLive wsC envDepthViewFails 10
    (Or.inr (Or.inr (Or.inr (Or.inr (Or.inr (Or.inr (Or.inr rfl)))))))
  rw [hr]

end LynxVk
